import Mathlib

/-!
Shallow embedding of the streaming chat aggregator of `5a_map_streamlit.py`:
the Stream Client (`ask_deepseek`), the background worker (`_worker`), the
hand-off queue, and the display loop of the `user_question` handler.

External effects are modelled as data: the JSON decoder's result is carried
by each wire line; the HTTP connection outcome is an input; the queue becomes
a list of items in put order; the display loop is a function of the items it
receives.  Python semantics of the code (truthiness, short-circuit `and`,
dict `.get` vs subscript, exceptions escaping to the enclosing handler) are
embedded explicitly.
-/

namespace FiveAMap

/-- Embeds `_END_TOKEN = "__END_OF_STREAM__"` (an ordinary string constant). -/
def _END_TOKEN : String := "__END_OF_STREAM__"

/-- The fixed system instruction placed first in the message list. -/
def systemPrompt : String :=
  "你是一位中国旅行顾问，专门回答关于全国5A级景点的问答，并且应参考上下文连续回答。"

/-- The fragment yielded when no API key is configured. -/
def noKeyNotice : String := "⚠️ 未设置 API Key，无法调用 DeepSeek。"

/-- The error fragment yielded by `ask_deepseek`'s outer `except` clause,
`"❌ 调用 DeepSeek 失败: " + exc`. -/
def deepseekFail (exc : String) : String := "❌ 调用 DeepSeek 失败: " ++ exc

/-- The error fragment put by `_worker`'s own `except` clause. -/
def workerFail (exc : String) : String := "❌ DeepSeek 错误: " ++ exc

/-- Assistant content recorded when the first `q.get` times out after 25 s. -/
def timeoutNotice : String := "25 秒无响应，请稍后再试"

/-- Assistant content recorded when the first item equals `_END_TOKEN`. -/
def noAnswerNotice : String := "未收到回答"

/-- JSON values, as returned by a successful `json.loads`.  Objects stand for
Python dicts after parsing, so key lists are duplicate-free in any input that
models a real decoded line. -/
inductive Json where
  | null
  | bool (b : Bool)
  | num (n : Int)
  | str (s : String)
  | arr (elems : List Json)
  | obj (fields : List (String × Json))

/-- Python truthiness of a decoded JSON value. -/
def truthy : Json → Bool
  | .null => false
  | .bool b => b
  | .num n => n != 0
  | .str s => !(s == "")
  | .arr xs => !xs.isEmpty
  | .obj fs => !fs.isEmpty

/-- Embeds Python `x.get(k)`: returns the value or `None` on a dict, raises
`AttributeError` on any other value. -/
def pyDictGet (j : Json) (k : String) : Except String (Option Json) :=
  match j with
  | .obj fs => .ok (fs.lookup k)
  | _ => .error "AttributeError"

/-- Embeds Python `x[0]`: head of a non-empty list, first character of a
non-empty string, `IndexError` on empty ones, `KeyError` on a dict (decoded
JSON objects have no integer keys), `TypeError` otherwise. -/
def pyIndexZero (j : Json) : Except String Json :=
  match j with
  | .arr [] => .error "IndexError"
  | .arr (x :: _) => .ok x
  | .str s => if s == "" then .error "IndexError" else .ok (.str (s.take 1))
  | .obj _ => .error "KeyError"
  | _ => .error "TypeError"

/-- Embeds Python `x[k]` for a string key: dict lookup with `KeyError` when
the key is absent, `TypeError` on non-dicts. -/
def pySubscript (j : Json) (k : String) : Except String Json :=
  match j with
  | .obj fs =>
      match fs.lookup k with
      | some v => .ok v
      | none => .error "KeyError"
  | _ => .error "TypeError"

/-- Embeds the body of the per-chunk extraction in `ask_deepseek`:
`delta = (line_json.get("choices") and line_json["choices"][0]["delta"].get("content"))`
followed by `if delta: full_answer += delta; yield delta`.
Result `.ok (some s)` means `s` is yielded; `.ok none` means the line is
skipped (falsy `delta`); `.error e` means an exception other than
`json.JSONDecodeError` escapes the read loop (for instance `KeyError` from a
missing `"delta"` key, or `TypeError` from `full_answer += delta` when the
content is a truthy non-string). -/
def extractYield (line_json : Json) : Except String (Option String) :=
  match pyDictGet line_json "choices" with
  | .error e => .error e
  | .ok none => .ok none
  | .ok (some choices) =>
    if !truthy choices then .ok none
    else
      match pyIndexZero choices with
      | .error e => .error e
      | .ok c0 =>
        match pySubscript c0 "delta" with
        | .error e => .error e
        | .ok deltaVal =>
          match pyDictGet deltaVal "content" with
          | .error e => .error e
          | .ok none => .ok none
          | .ok (some v) =>
            if !truthy v then .ok none
            else
              match v with
              | .str s => .ok (some s)
              | _ => .error "TypeError"

/-- Payload of a line that starts with `b"data: "`, together with the outcome
of `json.loads` on it (the decoder is external; its verdict travels with the
line). -/
inductive DataPayload where
  | done
  | badJson (raw : String)
  | good (j : Json)

/-- One line delivered by `resp.iter_lines()`. -/
inductive WireLine where
  | blank
  | ping
  | nonData (raw : String)
  | data (p : DataPayload)

/-- Embeds the `for line in resp.iter_lines()` read loop of `ask_deepseek`,
returning the list of yielded fragments.  `tailExc` models an exception
raised by the line iterator itself after the given lines; it is converted by
the outer `except` into a single error fragment.  An exception escaping from
the chunk extraction is likewise caught by the outer `except`, which yields
the error fragment and ends the generator. -/
def readLines (tailExc : Option String) : List WireLine → List String
  | [] =>
      match tailExc with
      | some e => [deepseekFail e]
      | none => []
  | .blank :: rest => readLines tailExc rest
  | .ping :: rest => readLines tailExc rest
  | .nonData _ :: rest => readLines tailExc rest
  | .data .done :: _ => []
  | .data (.badJson _) :: rest => readLines tailExc rest
  | .data (.good j) :: rest =>
      match extractYield j with
      | .ok none => readLines tailExc rest
      | .ok (some s) => s :: readLines tailExc rest
      | .error e => [deepseekFail e]

/-- Outcome of `requests.post(...)` together with `raise_for_status()`:
either an exception before any line is read, or a stream of lines possibly
followed by a mid-stream iterator exception. -/
inductive HttpOutcome where
  | raised (exc : String)
  | stream (lines : List WireLine) (tailExc : Option String)

/-- Embeds the generator `ask_deepseek`: the list of fragments it yields,
as a function of whether `DEEPSEEK_API_KEY` is set and of the connection
outcome. -/
def ask_deepseek (hasKey : Bool) (outcome : HttpOutcome) : List String :=
  if !hasKey then [noKeyNotice]
  else
    match outcome with
    | .raised e => [deepseekFail e]
    | .stream lines tailExc => readLines tailExc lines

/-- One `q.put` performed by `_worker`, tagged by the code path that issued
it: a streamed chunk, the error fragment of the worker's `except` clause, or
the `q.put(_END_TOKEN)` terminator. -/
inductive PutItem where
  | chunk (s : String)
  | errFrag (s : String)
  | endTok
deriving DecidableEq

/-- A run of the generator as observed by `_worker`'s `for` loop: the chunks
that were yielded, and an optional exception escaping the iteration after
them. -/
structure GenRun where
  chunks : List String
  escape : Option String

/-- Embeds `_worker`: the ordered trace of its `q.put` calls.  Each chunk is
put as `chunk or ""`; on normal exhaustion the end token follows the chunks;
if an exception escapes the iteration, the `except` clause puts the worker
error fragment and then the end token. -/
def workerTrace (r : GenRun) : List PutItem :=
  (r.chunks.map fun c => PutItem.chunk (if c == "" then "" else c)) ++
    match r.escape with
    | none => [PutItem.endTok]
    | some e => [PutItem.errFrag (workerFail e), PutItem.endTok]

/-- The string actually stored in the queue for a put: the end token is the
plain string `_END_TOKEN`, in band with chunk text. -/
def putString : PutItem → String
  | .chunk s => s
  | .errFrag s => s
  | .endTok => _END_TOKEN

/-- Contents of the hand-off queue, in order, for a worker run. -/
def channelOf (r : GenRun) : List String := (workerTrace r).map putString

/-- Observable outcome of the display loop: the text left in the
`thinking_slot` placeholder at the end, and the turns appended to
`st.session_state.chat_history`, in order. -/
structure DrainResult where
  finalDisplay : String
  recorded : List (String × String)
deriving DecidableEq

/-- Embeds the `while True` poll loop: accumulate items into
`streamed_answer` until an item equals `_END_TOKEN`.  `none` models the loop
never terminating because no end token ever arrives (the poll-timeout branch
only toggles the cursor and changes no accumulated state, so the result
depends only on the item sequence). -/
def pollLoop (acc : String) : List String → Option String
  | [] => none
  | c :: rest =>
      if c = _END_TOKEN then some acc
      else pollLoop (acc ++ c) rest

/-- Embeds the display section of the `user_question` handler.  `firstGet` is
the outcome of `q.get(timeout=25)`: `none` for `queue.Empty`, otherwise the
first queue item; `rest` are the items received afterwards.  On timeout the
code renders the timeout notice, appends it to history, sets
`first_chunk = _END_TOKEN`, and then — the following `if` not being an
`elif` of the `except` — also renders `"❓ 未收到回答"` over it and appends
the no-answer notice. -/
def displayLoop (firstGet : Option String) (rest : List String) : Option DrainResult :=
  match firstGet with
  | none =>
      some { finalDisplay := "❓ " ++ noAnswerNotice,
             recorded := [("assistant", timeoutNotice), ("assistant", noAnswerNotice)] }
  | some first =>
      if first = _END_TOKEN then
        some { finalDisplay := "❓ " ++ noAnswerNotice,
               recorded := [("assistant", noAnswerNotice)] }
      else
        match pollLoop ("" ++ first) rest with
        | none => none
        | some ans => some { finalDisplay := ans, recorded := [("assistant", ans)] }

/-- End-to-end composition for one request in which the first queue item
arrives within the 25 s bound: the Stream Client's fragments pass through the
worker into the queue, and the display loop drains them. -/
def runRequest (hasKey : Bool) (outcome : HttpOutcome) : Option DrainResult :=
  match channelOf { chunks := ask_deepseek hasKey outcome, escape := none } with
  | [] => none
  | c :: rest => displayLoop (some c) rest

/-- One message of the request body. -/
structure Message where
  role : String
  content : String
deriving DecidableEq

/-- Embeds the Python slice `xs[-n:]`: the last `n` elements (all of them
when there are fewer). -/
def pyLastSlice (n : Nat) (xs : List α) : List α := xs.drop (xs.length - n)

/-- Embeds the message-list construction of `ask_deepseek`: start from the
system message, append each turn of `history[-6:]` in a loop, then append
the current question as a user message. -/
def buildMessages (prompt : String) (history : List (String × String)) : List Message :=
  ((pyLastSlice 6 history).foldl (fun acc rc => acc ++ [Message.mk rc.1 rc.2])
      [Message.mk "system" systemPrompt]) ++ [Message.mk "user" prompt]

/-- The request body `payload` of `ask_deepseek`; the temperature is passed
through opaquely. -/
structure RequestPayload (α : Type) where
  model : String
  messages : List Message
  max_tokens : Nat
  temperature : α
  stream : Bool

/-- Embeds the `payload = { ... }` dict literal of `ask_deepseek`. -/
def buildPayload (prompt : String) (history : List (String × String))
    (temperature : α) : RequestPayload α :=
  { model := "deepseek-reasoner",
    messages := buildMessages prompt history,
    max_tokens := 1600,
    temperature := temperature,
    stream := true }

/-- Session state visible to the `user_question` handler. -/
structure ChatState where
  chat_history : List (String × String)

/-- Embeds `st.session_state.chat_history.append(("user", user_question))`,
executed before the snapshot is taken. -/
def appendUserTurn (s : ChatState) (q : String) : ChatState :=
  { chat_history := s.chat_history ++ [("user", q)] }

/-- Embeds `history_snapshot = list(st.session_state.chat_history)`: the
value of the log at snapshot time. -/
def history_snapshot (s : ChatState) : List (String × String) := s.chat_history

/-- A two-cell heap making the copy-versus-alias distinction of
`history_snapshot = list(...)` observable: one cell for the session log, one
for the snapshot handed to the worker. -/
structure LogHeap where
  chat_history : List (String × String)
  snapshot : Option (List (String × String))

/-- Taking the snapshot copies the current log value into the snapshot cell. -/
def takeSnapshot (h : LogHeap) : LogHeap :=
  { h with snapshot := some h.chat_history }

/-- A later in-place `append` to the session log cell. -/
def logAppend (h : LogHeap) (t : String × String) : LogHeap :=
  { h with chat_history := h.chat_history ++ [t] }

/-- A well-formed chunk line whose delta content is `s`, as produced by the
streaming endpoint. -/
def contentChunk (s : String) : Json :=
  .obj [("choices", .arr [.obj [("delta", .obj [("content", .str s)])]])]

/-- A decoded chunk whose first `choices` element lacks the `"delta"` key. -/
def chunkNoDelta : Json := .obj [("choices", .arr [.obj []])]

/-! ## Helper lemmas -/

theorem foldl_snoc_map (f : α → β) (xs : List α) :
    ∀ init : List β, xs.foldl (fun acc x => acc ++ [f x]) init = init ++ xs.map f := by
  induction xs with
  | nil => intro init; simp
  | cons x xs ih => intro init; simp [ih]

theorem pollLoop_concat (fs : List String) :
    ∀ acc : String, (∀ x ∈ fs, x ≠ _END_TOKEN) →
      pollLoop acc (fs ++ [_END_TOKEN]) = some (fs.foldl (fun a b => a ++ b) acc) := by
  induction fs with
  | nil =>
      intro acc _
      simp [pollLoop]
  | cons c fs ih =>
      intro acc h
      have hc : c ≠ _END_TOKEN := h c (List.mem_cons_self _ _)
      simp only [List.cons_append, pollLoop, if_neg hc, List.foldl_cons]
      exact ih (acc ++ c) fun x hx => h x (List.mem_cons_of_mem _ hx)

theorem snapshot_foldl_logAppend (ts : List (String × String)) :
    ∀ h : LogHeap, (ts.foldl logAppend h).snapshot = h.snapshot := by
  induction ts with
  | nil => intro h; rfl
  | cons t ts ih => intro h; simp [ih, logAppend]

theorem getLast?_snoc (l : List α) (a : α) : (l ++ [a]).getLast? = some a := by
  simp [List.getLast?_append_cons]

/-! ## Claims -/

/-- C1 (counterexample).  The claim fails when a fragment's text equals the
in-band sentinel string: for the single fragment F1 = `"__END_OF_STREAM__"`
followed by EndOfStream, the display loop takes the no-answer branch, so the
final rendered text is the no-answer notice rather than the concatenation
F1. -/
theorem C1_cex :
    displayLoop (some _END_TOKEN) ([] ++ [_END_TOKEN])
      = some { finalDisplay := "❓ " ++ noAnswerNotice,
               recorded := [("assistant", noAnswerNotice)] }
    ∧ "❓ " ++ noAnswerNotice ≠ ([_END_TOKEN] : List String).foldl (fun a b => a ++ b) ""
    ∧ [("assistant", "❓ " ++ noAnswerNotice)]
        ≠ [("assistant", ([_END_TOKEN] : List String).foldl (fun a b => a ++ b) "")] := by
  refine ⟨by decide, by decide, by decide⟩

/-- C1 (amended).  When the worker publishes fragments F1…Fn (n ≥ 1),
none of whose texts equals the sentinel string `_END_TOKEN`, followed by
EndOfStream, and the first fragment arrives within the 25 s bound, the
display loop's final rendered text and the single assistant turn it records
both equal the ordered concatenation F1++…++Fn (empty fragments included). -/
theorem C1_amended (f : String) (fs : List String)
    (h : ∀ x ∈ f :: fs, x ≠ _END_TOKEN) :
    displayLoop (some f) (fs ++ [_END_TOKEN])
      = some { finalDisplay := (f :: fs).foldl (fun a b => a ++ b) "",
               recorded := [("assistant", (f :: fs).foldl (fun a b => a ++ b) "")] } := by
  have hf : f ≠ _END_TOKEN := h f (List.mem_cons_self _ _)
  have ht : ∀ x ∈ fs, x ≠ _END_TOKEN := fun x hx => h x (List.mem_cons_of_mem _ hx)
  simp only [displayLoop, if_neg hf, pollLoop_concat fs ("" ++ f) ht, List.foldl_cons]

/-- C1 (witness). -/
theorem C1_witness :
    displayLoop (some "你") (["好"] ++ [_END_TOKEN])
      = some { finalDisplay := ("你" :: ["好"]).foldl (fun a b => a ++ b) "",
               recorded := [("assistant", ("你" :: ["好"]).foldl (fun a b => a ++ b) "")] } :=
  C1_amended "你" ["好"] (by decide)

/-- C2.  For every run of the worker — over every Stream Client outcome
(normal completion, `[DONE]`, skipped-lines-only streams, converted error
fragments) and every exception escaping the iteration — the trace of the
worker's puts ends with the end-token put, and no earlier put is the
end-token put: EndOfStream is published exactly once and last. -/
theorem C2_end_token_once_last (hasKey : Bool) (outcome : HttpOutcome)
    (escape : Option String) :
    ∃ pre, workerTrace { chunks := ask_deepseek hasKey outcome, escape := escape }
        = pre ++ [PutItem.endTok] ∧ PutItem.endTok ∉ pre := by
  cases escape with
  | none =>
      refine ⟨(ask_deepseek hasKey outcome).map
        (fun c => PutItem.chunk (if c == "" then "" else c)), rfl, ?_⟩
      simp [List.mem_map]
  | some e =>
      refine ⟨(ask_deepseek hasKey outcome).map
          (fun c => PutItem.chunk (if c == "" then "" else c))
          ++ [PutItem.errFrag (workerFail e)], ?_, ?_⟩
      · simp [workerTrace]
      · simp [List.mem_append, List.mem_map]

/-- C3 (evaluation at the failing input).  When the first `q.get` times out,
the handler renders the timeout notice but then falls into the
`first_chunk == _END_TOKEN` branch as well: the final displayed text is the
no-answer notice `"❓ 未收到回答"` — identical to the immediate-EndOfStream
case — not the timeout notice, and history receives two assistant turns,
first the timeout notice and then the no-answer notice, so the final
recorded answer is the no-answer notice. -/
theorem C3_timeout_eval :
    displayLoop none []
      = some { finalDisplay := "❓ " ++ noAnswerNotice,
               recorded := [("assistant", timeoutNotice), ("assistant", noAnswerNotice)] }
    ∧ (displayLoop none []).map DrainResult.finalDisplay
        = (displayLoop (some _END_TOKEN) []).map DrainResult.finalDisplay
    ∧ "❓ " ++ noAnswerNotice ≠ timeoutNotice := by
  refine ⟨by decide, by decide, by decide⟩

/-- C5 (counterexample).  A decoded chunk whose delta content is present and
equal to the empty string is not yielded: `if delta:` is false on `""`, so
the stream of that chunk followed by `[DONE]` yields no fragment at all,
where the claim demands the single fragment `""`. -/
theorem C5_cex :
    readLines none [WireLine.data (DataPayload.good (contentChunk "")),
        WireLine.data DataPayload.done] = []
    ∧ ([] : List String) ≠ [""] := by
  refine ⟨by decide, by decide⟩

/-- C5 (amended).  A present-but-empty delta content is skipped — the line
yields no fragment and reading continues — while a present non-empty content
string is yielded as a fragment. -/
theorem C5_amended (tailExc : Option String) (rest : List WireLine) (s : String) :
    readLines tailExc (WireLine.data (DataPayload.good (contentChunk "")) :: rest)
        = readLines tailExc rest
    ∧ (s ≠ "" → readLines tailExc (WireLine.data (DataPayload.good (contentChunk s)) :: rest)
        = s :: readLines tailExc rest) := by
  constructor
  · rfl
  · intro h
    have hb : (s == "") = false := by simpa using h
    simp [readLines, extractYield, contentChunk, pyDictGet, pySubscript, pyIndexZero,
      truthy, List.lookup, hb]

/-- C5 (witness). -/
theorem C5_witness :
    readLines none (WireLine.data (DataPayload.good (contentChunk "")) :: []) = readLines none []
    ∧ readLines none (WireLine.data (DataPayload.good (contentChunk "hi")) :: [])
        = "hi" :: readLines none [] := by
  have h := C5_amended none [] "hi"
  exact ⟨h.1, h.2 (by decide)⟩

/-- C6 (counterexample).  The end marker is the ordinary string
`"__END_OF_STREAM__"`, compared in band with fragment text: publishing the
fragments "A", `"__END_OF_STREAM__"`, "B" and then EndOfStream makes the
display loop stop at the second fragment, discarding "B" — a fragment's text
is confused with the marker, contradicting the claim. -/
theorem C6_cex :
    displayLoop (some "A") [_END_TOKEN, "B", _END_TOKEN]
      = some { finalDisplay := "A", recorded := [("assistant", "A")] }
    ∧ "A" ≠ "A" ++ _END_TOKEN ++ "B" := by
  refine ⟨by decide, by decide⟩

/-- C6 (amended).  The marker is in band: the display loop treats a channel
item as content exactly when its text differs from the sentinel string
`_END_TOKEN`; any item equal to that string — the marker put, or a fragment
whose text happens to coincide with it — is treated as end-of-stream. -/
theorem C6_amended (acc s : String) (rest : List String) :
    (s ≠ _END_TOKEN → pollLoop acc (s :: rest) = pollLoop (acc ++ s) rest)
    ∧ pollLoop acc (_END_TOKEN :: rest) = some acc := by
  constructor
  · intro h
    simp [pollLoop, h]
  · simp [pollLoop]

/-- C6 (witness). -/
theorem C6_witness :
    (pollLoop "A" ("B" :: []) = pollLoop ("A" ++ "B") [])
    ∧ pollLoop "A" (_END_TOKEN :: []) = some "A" := by
  have h := C6_amended "A" "B" []
  exact ⟨h.1 (by decide), h.2⟩

/-- C7.  A `data:` line whose payload fails JSON decoding is absorbed: the
read loop continues with the remaining lines unchanged; and in the concrete
scenario — a valid chunk "A", a malformed line, a valid chunk "B", then
`[DONE]` — the whole pipeline (Stream Client, worker, queue, display loop)
renders and records exactly "AB". -/
theorem C7_malformed_absorbed :
    (∀ (raw : String) (tailExc : Option String) (rest : List WireLine),
        readLines tailExc (WireLine.data (DataPayload.badJson raw) :: rest)
          = readLines tailExc rest)
    ∧ runRequest true (HttpOutcome.stream
        [WireLine.data (DataPayload.good (contentChunk "A")),
         WireLine.data (DataPayload.badJson "not json"),
         WireLine.data (DataPayload.good (contentChunk "B")),
         WireLine.data DataPayload.done] none)
      = some { finalDisplay := "AB", recorded := [("assistant", "AB")] } := by
  refine ⟨fun raw tailExc rest => rfl, by decide⟩

/-- C4 (counterexample).  A line whose payload decodes as JSON but whose
first `choices` element lacks the `"delta"` key is not skipped: subscripting
raises `KeyError`, which escapes the read loop and is converted into a
terminal error fragment, so a following valid chunk "B" is never read —
where the claim demands the line be skipped and reading continue. -/
theorem C4_cex :
    readLines none [WireLine.data (DataPayload.good chunkNoDelta),
        WireLine.data (DataPayload.good (contentChunk "B")),
        WireLine.data DataPayload.done]
      = [deepseekFail "KeyError"]
    ∧ readLines none [WireLine.data (DataPayload.good (contentChunk "B")),
        WireLine.data DataPayload.done] = ["B"]
    ∧ [deepseekFail "KeyError"] ≠ (["B"] : List String) := by
  refine ⟨by decide, by decide, by decide⟩

/-- C4 (amended).  A decoded chunk line is skipped, with reading continuing,
when the object lacks the `choices` key, when `choices` is falsy (e.g. the
empty list), or when the first element's delta object lacks the `content`
field; but a first element lacking the `delta` key raises an exception that
is converted into a terminal error fragment ending the stream. -/
theorem C4_amended (tailExc : Option String) (rest : List WireLine)
    (others : List (String × Json)) (moreChoices : List Json)
    (deltaFields : List (String × Json))
    (hnc : others.lookup "choices" = none)
    (hnd : deltaFields.lookup "content" = none) :
    readLines tailExc (WireLine.data (DataPayload.good (Json.obj others)) :: rest)
        = readLines tailExc rest
    ∧ readLines tailExc
        (WireLine.data (DataPayload.good (Json.obj [("choices", Json.arr [])])) :: rest)
        = readLines tailExc rest
    ∧ readLines tailExc
        (WireLine.data (DataPayload.good (Json.obj [("choices",
            Json.arr (Json.obj [("delta", Json.obj deltaFields)] :: moreChoices))])) :: rest)
        = readLines tailExc rest
    ∧ readLines tailExc (WireLine.data (DataPayload.good chunkNoDelta) :: rest)
        = [deepseekFail "KeyError"] := by
  refine ⟨?_, rfl, ?_, rfl⟩
  · simp [readLines, extractYield, pyDictGet, hnc]
  · simp [readLines, extractYield, pyDictGet, pySubscript, pyIndexZero, truthy,
      List.lookup, hnd]

/-- C4 (witness). -/
theorem C4_witness :
    readLines none (WireLine.data (DataPayload.good (Json.obj [])) :: []) = readLines none []
    ∧ readLines none
        (WireLine.data (DataPayload.good (Json.obj [("choices", Json.arr [])])) :: [])
        = readLines none []
    ∧ readLines none
        (WireLine.data (DataPayload.good (Json.obj [("choices",
            Json.arr (Json.obj [("delta", Json.obj [])] :: []))])) :: [])
        = readLines none []
    ∧ readLines none (WireLine.data (DataPayload.good chunkNoDelta) :: [])
        = [deepseekFail "KeyError"] :=
  C4_amended none [] [] [] [] rfl rfl

/-- C8.  The request body built by the Stream Client has the fixed system
instruction first, then at most the last 6 history turns in their original
order (a suffix of the history), then the question as the final user turn;
its token budget is the fixed 1600, its temperature is the given one, and
its streaming flag is true. -/
theorem C8_payload_shape (prompt : String) (history : List (String × String))
    {α : Type} (temp : α) :
    (buildPayload prompt history temp).messages
        = Message.mk "system" systemPrompt
            :: ((pyLastSlice 6 history).map (fun rc => Message.mk rc.1 rc.2)
                ++ [Message.mk "user" prompt])
    ∧ (pyLastSlice 6 history).length ≤ 6
    ∧ List.IsSuffix (pyLastSlice 6 history) history
    ∧ (buildPayload prompt history temp).max_tokens = 1600
    ∧ (buildPayload prompt history temp).temperature = temp
    ∧ (buildPayload prompt history temp).stream = true := by
  refine ⟨?_, ?_, ?_, rfl, rfl, rfl⟩
  · show buildMessages prompt history = _
    unfold buildMessages
    rw [foldl_snoc_map]
    simp
  · unfold pyLastSlice
    rw [List.length_drop]
    omega
  · exact ⟨history.take (history.length - 6), List.take_append_drop _ _⟩

/-- C10.  The submitted question is appended to the log before the snapshot
is taken, and the Stream Client appends it again as the final user turn, so
the built message list contains the question twice: its last message and the
one before it are both the user turn carrying the question (the last-6
window always covers the just-appended question since the window is
non-empty). -/
theorem C10_question_twice (s0 : ChatState) (q : String) :
    (buildMessages q (history_snapshot (appendUserTurn s0 q))).getLast?
        = some (Message.mk "user" q)
    ∧ (buildMessages q (history_snapshot (appendUserTurn s0 q))).dropLast.getLast?
        = some (Message.mk "user" q) := by
  have hk : s0.chat_history.length + 1 - 6 ≤ s0.chat_history.length := by omega
  have hwin : pyLastSlice 6 (s0.chat_history ++ [("user", q)])
      = s0.chat_history.drop (s0.chat_history.length + 1 - 6) ++ [("user", q)] := by
    show (s0.chat_history ++ [("user", q)]).drop
        ((s0.chat_history ++ [("user", q)]).length - 6) = _
    rw [List.length_append, List.length_singleton]
    exact List.drop_append_of_le_length hk
  have hmsgs : buildMessages q (history_snapshot (appendUserTurn s0 q))
      = ((Message.mk "system" systemPrompt
            :: (s0.chat_history.drop (s0.chat_history.length + 1 - 6)).map
                (fun rc => Message.mk rc.1 rc.2))
          ++ [Message.mk "user" q]) ++ [Message.mk "user" q] := by
    show buildMessages q (s0.chat_history ++ [("user", q)]) = _
    unfold buildMessages
    rw [hwin, foldl_snoc_map]
    simp
  refine ⟨?_, ?_⟩
  · rw [hmsgs]
    exact getLast?_snoc _ _
  · rw [hmsgs, List.dropLast_concat]
    exact getLast?_snoc _ _

/-- C9.  The history snapshot is a by-value copy: after any sequence of
later appends to the session log cell, the snapshot cell still holds the
value the log had when the snapshot was taken. -/
theorem C9_snapshot_by_value (h : LogHeap) (later : List (String × String)) :
    (later.foldl logAppend (takeSnapshot h)).snapshot = some h.chat_history := by
  rw [snapshot_foldl_logAppend]
  rfl

end FiveAMap
